import Mathlib

/-!
Verification of the argument sanitizer, stream copier, status-line parser and
result state machines of the python-gnupg wrapper (src/gnupg.py), by shallow
embedding: pure Lean translations of the Python functions, with theorems about
them. Strings are modelled as Lean `String` (a list of characters, matching
Python's sequence-of-code-points view); Python `None`-able attributes become
`Option`; Python exceptions become `Except String`.
-/

/-! ## Python string primitives used by src/gnupg.py -/

/-- The single-quote character, written by code point to keep source clean. -/
def sQuote : Char := Char.ofNat 39

/-- The single-quote character as a one-character string. -/
def sQuoteStr : String := String.singleton sQuote

/-- Python `str.find(c)` for a single-character needle: index of the first
occurrence of `c`, or `-1` when absent (src uses `input.find('_')` and
`arg.find(' ')`). -/
def pyFind (s : String) (c : Char) : Int :=
  match s.data.findIdx? (· = c) with
  | some i => (i : Int)
  | none => -1

/-- Python slicing `s[:n]` on code points. -/
def strTake (s : String) (n : Nat) : String := ⟨s.data.take n⟩

/-- Python slicing `s[n:]` on code points. -/
def strDrop (s : String) (n : Nat) : String := ⟨s.data.drop n⟩

/-- Python `str.rstrip()` on a character list: drop trailing whitespace. -/
def pyRstripL (l : List Char) : List Char :=
  (l.reverse.dropWhile Char.isWhitespace).reverse

/-- Python `str.rstrip()`. -/
def pyRstrip (s : String) : String := ⟨pyRstripL s.data⟩

/-- Python `str.strip()`: drop leading and trailing whitespace. -/
def pyStrip (s : String) : String :=
  ⟨((s.data.dropWhile Char.isWhitespace).reverse.dropWhile Char.isWhitespace).reverse⟩

/-- Worker for Python `str.split()` (split on whitespace runs, no empties);
the fuel is an upper bound on the number of characters still to consume, so
`fuel = l.length` fully tokenizes `l`. -/
def wsTokens : Nat → List Char → List String
  | 0, _ => []
  | _, [] => []
  | fuel+1, c :: cs =>
    if c.isWhitespace then wsTokens fuel cs
    else
      ⟨c :: cs.takeWhile (fun d => !d.isWhitespace)⟩ ::
        wsTokens fuel (cs.dropWhile (fun d => !d.isWhitespace))

/-- Python `str.split()` with no arguments: whitespace runs separate tokens,
leading/trailing whitespace ignored, no empty tokens. -/
def pySplitWs (s : String) : List String := wsTokens s.data.length s.data

/-- Python `str.split(None, 1)`: at most one split, on the first whitespace
run after the first token; leading whitespace is skipped, and a remainder
consisting only of whitespace is not returned. -/
def pySplitNone1 (s : String) : List String :=
  if (s.data.dropWhile Char.isWhitespace).isEmpty then []
  else
    if (((s.data.dropWhile Char.isWhitespace).dropWhile
          (fun c => !c.isWhitespace)).dropWhile Char.isWhitespace).isEmpty then
      [⟨(s.data.dropWhile Char.isWhitespace).takeWhile (fun c => !c.isWhitespace)⟩]
    else
      [⟨(s.data.dropWhile Char.isWhitespace).takeWhile (fun c => !c.isWhitespace)⟩,
       ⟨((s.data.dropWhile Char.isWhitespace).dropWhile
           (fun c => !c.isWhitespace)).dropWhile Char.isWhitespace⟩]

/-- Python `sep.join(list)`. -/
def pyJoin (sep : String) : List String → String
  | [] => ""
  | [x] => x
  | x :: y :: xs => x ++ sep ++ pyJoin sep (y :: xs)

/-- Python `s.replace(a, b)` for single-character pattern and replacement
(used as `input.replace('_', '-')` and `key.replace("_", " ")`). -/
def replaceChar (s : String) (a b : Char) : String :=
  ⟨s.data.map (fun c => if c = a then b else c)⟩

/-- Python `s.replace(a, t)` for a single-character pattern and a string
replacement (used as `input.replace("'", "'\x22'\x22'")` in `_fix_unsafe`). -/
def replaceCharStr (s : String) (a : Char) (t : String) : String :=
  ⟨(s.data.map (fun c => if c = a then t.data else [c])).flatten⟩

/-- Python `str.lower()` (ASCII data here). -/
def pyLower (s : String) : String := ⟨s.data.map Char.toLower⟩

/-- Python `str.startswith('-')`: first character is a dash.  This is the
`is_flag` lambda of `_sanitise` (src/gnupg.py:571). -/
def is_flag (x : String) : Bool :=
  match x.data with
  | [] => false
  | c :: _ => c = '-'

/-- Python `str.startswith('--')`. -/
def startsDashDash (x : String) : Bool := x.data.take 2 = ['-', '-']

/-- Python `repr` of a string without special characters: wrapped in single
quotes (the `%r` format used in the `"Unknown status message: %r"` errors;
all keywords fed to it are plain ASCII words). -/
def pyRepr (s : String) : String := sQuoteStr ++ s ++ sQuoteStr

/-- Python `int(s)`: strip whitespace, optional sign, decimal digits. -/
def pyIntDigits (l : List Char) : Option Nat :=
  if l ≠ [] ∧ l.all Char.isDigit then
    some (l.foldl (fun a c => a * 10 + (c.toNat - 48)) 0)
  else none

/-- Python `int(s)` returning `none` where Python raises `ValueError`. -/
def pyInt (s : String) : Option Int :=
  match (pyStrip s).data with
  | [] => none
  | c :: rest =>
    if c = '-' then (pyIntDigits rest).map (fun n => -(n : Int))
    else if c = '+' then (pyIntDigits rest).map (fun n => (n : Int))
    else (pyIntDigits (c :: rest)).map (fun n => (n : Int))

/-! ## `_fix_unsafe` (src/gnupg.py:155-171)

The regex class is the complement of `\w` plus `@ % + = : , . / -`, compiled
with flag 256 (`re.ASCII`, "pilfered
from python-3.x shlex"), so `\w` is ASCII `[A-Za-z0-9_]`. -/

/-- ASCII `\w`: letter, digit or underscore. -/
def wChar (c : Char) : Bool := c.isAlpha || c.isDigit || c = '_'

/-- The literal characters of the regex character class besides `\w`. -/
def classChars : List Char := "@%+=:,./-".data

/-- A character matched by the unsafe pattern (not ASCII `\w` and not one of
the literal class characters), i.e. one that can escape from a string into a
shell. -/
def riskyChar (c : Char) : Bool := !(wChar c || classChars.contains c)

/-- The five-character escape `'\x22'\x22'` substituted for a single quote. -/
def quoteEscSeq : String := sQuoteStr ++ "\x22" ++ sQuoteStr ++ "\x22" ++ sQuoteStr

/-- `_fix_unsafe` (src/gnupg.py:155-171): if no character of the input matches
the unsafe pattern, return the input unchanged; otherwise replace each single
quote by `quoteEscSeq` and wrap the whole string in single quotes.  (The
`TypeError -> None` path only concerns non-string inputs, outside this
embedding's string domain.) -/
def fixShell (s : String) : String :=
  if (s.data.filter riskyChar).length = 0 then s
  else sQuoteStr ++ replaceCharStr s sQuote quoteEscSeq ++ sQuoteStr

/-! ## `_hyphenate` (src/gnupg.py:186-202) -/

/-- `_hyphenate`: change underscores to hyphens, optionally adding the leading
double dash. -/
def hyphenate (input : String) (addDashes : Bool) : String :=
  (if addDashes then "--" else "") ++ replaceChar input '_' '-'

/-! ## `_is_allowed` (src/gnupg.py:204-446) -/

/-- `_possible` (src/gnupg.py:232-394): all 318 GPG options known to the
module.  Python stores it as a `frozenset`; only membership matters. -/
def possibleList : List String := [
    "--allow-freeform-uid",
    "--allow-multiple-messages",
    "--allow-multisig-verification",
    "--allow-non-selfsigned-uid",
    "--allow-secret-key-import",
    "--always-trust",
    "--armor",
    "--armour",
    "--ask-cert-expire",
    "--ask-cert-level",
    "--ask-sig-expire",
    "--attribute-fd",
    "--attribute-file",
    "--auto-check-trustdb",
    "--auto-key-locate",
    "--auto-key-retrieve",
    "--batch",
    "--bzip2-compress-level",
    "--bzip2-decompress-lowmem",
    "--card-edit",
    "--card-status",
    "--cert-digest-algo",
    "--cert-notation",
    "--cert-policy-url",
    "--change-pin",
    "--charset",
    "--check-sig",
    "--check-sigs",
    "--check-trustdb",
    "--cipher-algo",
    "--clearsign",
    "--command-fd",
    "--command-file",
    "--comment",
    "--completes-needed",
    "--compress-algo",
    "--compress-keys",
    "--compress-level",
    "--compress-sigs",
    "--compression-algo",
    "--ctapi-driver",
    "--dearmor",
    "--dearmour",
    "--debug",
    "--debug-all",
    "--debug-ccid-driver",
    "--debug-level",
    "--decrypt",
    "--decrypt-files",
    "--default-cert-check-level",
    "--default-cert-expire",
    "--default-cert-level",
    "--default-comment",
    "--default-key",
    "--default-keyserver-url",
    "--default-preference-list",
    "--default-recipient",
    "--default-recipient-self",
    "--default-sig-expire",
    "--delete-keys",
    "--delete-secret-and-public-keys",
    "--delete-secret-keys",
    "--desig-revoke",
    "--detach-sign",
    "--digest-algo",
    "--disable-ccid",
    "--disable-cipher-algo",
    "--disable-dsa2",
    "--disable-mdc",
    "--disable-pubkey-algo",
    "--display",
    "--display-charset",
    "--dry-run",
    "--dump-options",
    "--edit-key",
    "--emit-version",
    "--enable-dsa2",
    "--enable-progress-filter",
    "--enable-special-filenames",
    "--enarmor",
    "--enarmour",
    "--encrypt",
    "--encrypt-files",
    "--encrypt-to",
    "--escape-from-lines",
    "--exec-path",
    "--exit-on-status-write-error",
    "--expert",
    "--export",
    "--export-options",
    "--export-ownertrust",
    "--export-secret-keys",
    "--export-secret-subkeys",
    "--fast-import",
    "--fast-list-mode",
    "--fetch-keys",
    "--fingerprint",
    "--fix-trustdb",
    "--fixed-list-mode",
    "--for-your-eyes-only",
    "--force-mdc",
    "--force-ownertrust",
    "--force-v3-sigs",
    "--force-v4-certs",
    "--gen-key",
    "--gen-prime",
    "--gen-random",
    "--gen-revoke",
    "--gnupg",
    "--gpg-agent-info",
    "--gpgconf-list",
    "--gpgconf-test",
    "--group",
    "--help",
    "--hidden-encrypt-to",
    "--hidden-recipient",
    "--homedir",
    "--honor-http-proxy",
    "--ignore-crc-error",
    "--ignore-mdc-error",
    "--ignore-time-conflict",
    "--ignore-valid-from",
    "--import",
    "--import-options",
    "--import-ownertrust",
    "--interactive",
    "--keyid-format",
    "--keyring",
    "--keyserver",
    "--keyserver-options",
    "--lc-ctype",
    "--lc-messages",
    "--limit-card-insert-tries",
    "--list-config",
    "--list-key",
    "--list-keys",
    "--list-only",
    "--list-options",
    "--list-ownertrust",
    "--list-packets",
    "--list-public-keys",
    "--list-secret-keys",
    "--list-sig",
    "--list-sigs",
    "--list-trustdb",
    "--load-extension",
    "--local-user",
    "--lock-multiple",
    "--lock-never",
    "--lock-once",
    "--logger-fd",
    "--logger-file",
    "--lsign-key",
    "--mangle-dos-filenames",
    "--marginals-needed",
    "--max-cert-depth",
    "--max-output",
    "--merge-only",
    "--min-cert-level",
    "--multifile",
    "--no",
    "--no-allow-freeform-uid",
    "--no-allow-multiple-messages",
    "--no-allow-non-selfsigned-uid",
    "--no-armor",
    "--no-armour",
    "--no-ask-cert-expire",
    "--no-ask-cert-level",
    "--no-ask-sig-expire",
    "--no-auto-check-trustdb",
    "--no-auto-key-locate",
    "--no-auto-key-retrieve",
    "--no-batch",
    "--no-comments",
    "--no-default-keyring",
    "--no-default-recipient",
    "--no-disable-mdc",
    "--no-emit-version",
    "--no-encrypt-to",
    "--no-escape-from-lines",
    "--no-expensive-trust-checks",
    "--no-expert",
    "--no-for-your-eyes-only",
    "--no-force-mdc",
    "--no-force-v3-sigs",
    "--no-force-v4-certs",
    "--no-greeting",
    "--no-groups",
    "--no-literal",
    "--no-mangle-dos-filenames",
    "--no-mdc-warning",
    "--no-options",
    "--no-permission-warning",
    "--no-pgp2",
    "--no-pgp6",
    "--no-pgp7",
    "--no-pgp8",
    "--no-random-seed-file",
    "--no-require-backsigs",
    "--no-require-cross-certification",
    "--no-require-secmem",
    "--no-rfc2440-text",
    "--no-secmem-warning",
    "--no-show-notation",
    "--no-show-photos",
    "--no-show-policy-url",
    "--no-sig-cache",
    "--no-sig-create-check",
    "--no-sk-comments",
    "--no-strict",
    "--no-textmode",
    "--no-throw-keyid",
    "--no-throw-keyids",
    "--no-tty",
    "--no-use-agent",
    "--no-use-embedded-filename",
    "--no-utf8-strings",
    "--no-verbose",
    "--no-version",
    "--not-dash-escaped",
    "--notation-data",
    "--openpgp",
    "--options",
    "--output",
    "--override-session-key",
    "--passphrase",
    "--passphrase-fd",
    "--passphrase-file",
    "--passphrase-repeat",
    "--pcsc-driver",
    "--personal-cipher-preferences",
    "--personal-cipher-prefs",
    "--personal-compress-preferences",
    "--personal-compress-prefs",
    "--personal-digest-preferences",
    "--personal-digest-prefs",
    "--pgp2",
    "--pgp6",
    "--pgp7",
    "--pgp8",
    "--photo-viewer",
    "--pipemode",
    "--preserve-permissions",
    "--primary-keyring",
    "--print-md",
    "--print-mds",
    "--quick-random",
    "--quiet",
    "--reader-port",
    "--rebuild-keydb-caches",
    "--recipient",
    "--recv-keys",
    "--refresh-keys",
    "--remote-user",
    "--require-backsigs",
    "--require-cross-certification",
    "--require-secmem",
    "--rfc1991",
    "--rfc2440",
    "--rfc2440-text",
    "--rfc4880",
    "--run-as-shm-coprocess",
    "--s2k-cipher-algo",
    "--s2k-count",
    "--s2k-digest-algo",
    "--s2k-mode",
    "--search-keys",
    "--secret-keyring",
    "--send-keys",
    "--set-filename",
    "--set-filesize",
    "--set-notation",
    "--set-policy-url",
    "--show-keyring",
    "--show-notation",
    "--show-photos",
    "--show-policy-url",
    "--show-session-key",
    "--sig-keyserver-url",
    "--sig-notation",
    "--sig-policy-url",
    "--sign",
    "--sign-key",
    "--sign-with",
    "--simple-sk-checksum",
    "--sk-comments",
    "--skip-verify",
    "--status-fd",
    "--status-file",
    "--store",
    "--strict",
    "--symmetric",
    "--temp-directory",
    "--textmode",
    "--throw-keyid",
    "--throw-keyids",
    "--trust-model",
    "--trustdb-name",
    "--trusted-key",
    "--try-all-secrets",
    "--ttyname",
    "--ttytype",
    "--ungroup",
    "--update-trustdb",
    "--use-agent",
    "--use-embedded-filename",
    "--user",
    "--utf8-strings",
    "--verbose",
    "--verify",
    "--verify-files",
    "--verify-options",
    "--version",
    "--warranty",
    "--with-colons",
    "--with-fingerprint",
    "--with-key-data",
    "--yes"]

/-- `_allowed` (src/gnupg.py:406-412): the allow-list, a strict subset of
`possibleList`. -/
def allowedList : List String :=
  ["--list-packets", "--delete-keys", "--delete-secret-keys",
   "--encrypt", "--print-mds", "--print-md", "--sign",
   "--encrypt-files", "--gen-key", "--decrypt", "--decrypt-files",
   "--list-keys", "--import", "--verify", "--version",
   "--status-fd", "--no-tty", "--homedir", "--no-default-keyring",
   "--keyring", "--passphrase-fd", "--fingerprint", "--with-colons"]

/-- The outcome of `_is_allowed` on a string input: the returned string, the
`ProtectedOption` exception, or Python's implicit `return None` fall-through. -/
inductive AllowResult
  | allowed (s : String)
  | protectedOpt
  | noneResult
deriving DecidableEq, Repr

/-- `_is_allowed` (src/gnupg.py:204-446) on a string input.  The
`_allowed.issubset(_possible)` assertion (lines 414-421) compares two fixed
constants and holds (see `allowed_subset_possible` below), so its `UsageError`
branch is unreachable and not a case of the result type.  Faithful to the
source, when the input contains an underscore at a positive index the
hyphenated form is computed (lines 428-432) but the membership check and the
`return input` both sit in the `else` branch of that test, so control falls
through to the final `return None` (line 446) without consulting the
allow-list. -/
def is_allowed (input : String) : AllowResult :=
  if pyFind input '_' > 0 then
    let _hyphenated :=
      if !startsDashDash input then hyphenate input true else hyphenate input false
    AllowResult.noneResult
  else
    let hyphenated := input
    if hyphenated ∈ allowedList then AllowResult.allowed input
    else AllowResult.protectedOpt

/-- The constant subset assertion of `_is_allowed` (src/gnupg.py:414-421)
holds, so the `UsageError` raise is dead code. -/
theorem allowed_subset_possible :
    allowedList.all (fun f => possibleList.contains f) = true := by decide

/-! ## `_sanitise` (src/gnupg.py:479-601) -/

/-- `_check_arg_and_value` (src/gnupg.py:508-558) as `_sanitise` calls it on
option strings: every call site passes `value = None` (single-token branch) or
`value = ""` (the multi-token loop, whose `new_value` accumulator never grows:
see `innerWhile`), and for both the value block is skipped — `None` fails the
`isinstance(value, str)` test and `""` yields an empty `value_list` since
`"".find(' ') > 0` is false — so no value text (and no `_is_file` filesystem
filtering) is ever appended.  What remains: a dropped option (`_is_allowed`
returned `None` or raised `ProtectedOption`) contributes `""`, an allowed flag
contributes itself plus a trailing space. -/
def check_arg_and_value (arg : String) : String :=
  match is_allowed arg with
  | AllowResult.allowed f => f ++ " "
  | _ => ""

/-- The inner `while not is_flag(filo[0])` loop of `_sanitise`
(src/gnupg.py:577-578): pops tokens off the end of `filo` into `new_value`
until the head of `filo` is a flag.  `none` models the `IndexError` Python
would raise by indexing `filo[0]` on an exhausted list (the fuel is an upper
bound on iterations; `filo.length + 1` can always reach either exit). -/
def innerWhile : Nat → List String → String → Option (List String × String)
  | 0, _, _ => none
  | _+1, [], _ => none
  | fuel+1, x :: rest, nv =>
    if is_flag x then some (x :: rest, nv)
    else innerWhile fuel ((x :: rest).dropLast) (nv ++ (x :: rest).getLastD "" ++ " ")

/-- The `while len(filo) > 0` loop of `_sanitise` (src/gnupg.py:573-585).
`filo` is the Python list (head = index 0, `pop()` takes the last element);
`new_arg`/`new_value`/`checked` are the loop's mutable locals.  `none` models
an uncaught `IndexError` from the inner loop.  Fuel `filo.length` suffices
since every iteration removes at least one element. -/
def sanitiseLoop : Nat → List String → String → String → List String →
    Option (List String)
  | _, [], _, _, checked => some checked
  | 0, _ :: _, _, _, _ => none
  | fuel+1, x :: rest, newArg, newValue, checked =>
    let filo := x :: rest
    if is_flag x then
      let newArg2 := filo.getLastD ""
      let filo2 := filo.dropLast
      match (if filo2.length > 0 then innerWhile (filo2.length + 1) filo2 newValue
             else some (filo2, newValue)) with
      | none => none
      | some (filo3, newValue2) =>
        let safe := check_arg_and_value newArg2
        let checked2 := if pyStrip safe ≠ "" then checked ++ [safe] else checked
        sanitiseLoop fuel filo3 newArg2 newValue2 checked2
    else
      let safe := check_arg_and_value newArg
      let checked2 := if pyStrip safe ≠ "" then checked ++ [safe] else checked
      sanitiseLoop fuel filo.dropLast newArg newValue checked2

/-- `_sanitise` (src/gnupg.py:479-601) applied to one string argument, the
shape every claim about it uses.  A string containing a space at a positive
index is tokenized and run through the filo loop (whose appends are guarded by
`safe.strip() != ''`); otherwise `_check_arg_and_value(arg, None)` is appended
unconditionally.  The results are joined with single spaces.  `none` models an
uncaught `IndexError` inside the loop. -/
def sanitise1 (arg : String) : Option String :=
  if pyFind arg ' ' > 0 then
    let filo := (pySplitWs arg).reverse
    match sanitiseLoop filo.length filo "" "" [] with
    | some checked => some (pyJoin " " checked)
    | none => none
  else some (pyJoin " " [check_arg_and_value arg])

/-! ## `_copy_data` (src/gnupg.py:108-153)

The input stream is a byte sequence (`List Nat`); `instream.read(1024)`
yields successive chunks of at most 1024 bytes.  The sink's behavior at each
write is abstracted by a `WriteOutcome`: a normal write, a write whose first
attempt raises `UnicodeError` and whose re-encoded retry succeeds, a retry
that raises `IOError`, or a direct `IOError` (broken pipe).  The initial
`isinstance` assertions are abstracted by the boolean `preOk`; when one of
them fails the function logs and returns at once (line 122), before the
closing code at line 148. -/

/-- What `outstream.write` does on one chunk. -/
inductive WriteOutcome
  | okWrite
  | unicodeThenOk
  | unicodeThenIOErr
  | ioErr
deriving DecidableEq, Repr

/-- Observable result of `_copy_data`: the chunks that reached the sink, the
`sent` counter, whether `outstream.close()` was invoked, and whether the copy
loop broke early on a broken pipe. -/
structure CopyResult where
  written : List (List Nat)
  sent : Nat
  closed : Bool
  broke : Bool
deriving DecidableEq, Repr

/-- Successive `instream.read(1024)` results until end-of-stream (fuel is the
total byte count; each step consumes at least one byte). -/
def chunksFuel : Nat → List Nat → List (List Nat)
  | 0, _ => []
  | _, [] => []
  | fuel+1, l => l.take 1024 :: chunksFuel fuel (l.drop 1024)

/-- All chunks read from an input stream holding `input`. -/
def readChunks (input : List Nat) : List (List Nat) := chunksFuel input.length input

/-- The `while True` copy loop (src/gnupg.py:129-147): for each chunk, bump
`sent`, try the write; `UnicodeError` triggers a re-encoded retry; an
`IOError` from either the retry or the first attempt logs the broken pipe and
breaks out of the loop. -/
def copyLoop (w : Nat → WriteOutcome) : List (List Nat) → Nat → Nat →
    List (List Nat) × Nat × Bool
  | [], _, sent => ([], sent, false)
  | c :: cs, i, sent =>
    let sent2 := sent + c.length
    match w i with
    | WriteOutcome.okWrite =>
      let r := copyLoop w cs (i + 1) sent2
      (c :: r.1, r.2.1, r.2.2)
    | WriteOutcome.unicodeThenOk =>
      let r := copyLoop w cs (i + 1) sent2
      (c :: r.1, r.2.1, r.2.2)
    | WriteOutcome.unicodeThenIOErr => ([], sent2, true)
    | WriteOutcome.ioErr => ([], sent2, true)

/-- `_copy_data` (src/gnupg.py:108-153).  On a precondition failure the
function returns from inside the `except AssertionError` handler without
reaching the close; otherwise it runs the copy loop and then always calls
`outstream.close()` (an `IOError` from `close` itself is caught and logged,
so `closed` records that the call was made). -/
def copy_data (preOk : Bool) (w : Nat → WriteOutcome) (input : List Nat) :
    CopyResult :=
  if !preOk then { written := [], sent := 0, closed := false, broke := false }
  else
    let r := copyLoop w (readChunks input) 0 0
    { written := r.1, sent := r.2.1, closed := true, broke := r.2.2 }

/-! ## Result state machines (src/gnupg.py:693-1046)

Python attributes initialized to `None` become `Option String` / `Option Nat`;
`handle_status` raising `ValueError`/`IndexError`/`KeyError` becomes
`Except String`. -/

/-- The `"Unknown status message: %r" % key` error text shared by all
`handle_status` methods. -/
def unknownStatus (key : String) : String :=
  "Unknown status message: " ++ pyRepr key

/-! ### Verify (src/gnupg.py:693-782) -/

/-- `Verify.TRUST_LEVELS` (src/gnupg.py:702-708). -/
def TRUST_LEVELS : List (String × Nat) :=
  [("TRUST_UNDEFINED", 0), ("TRUST_NEVER", 1), ("TRUST_MARGINAL", 2),
   ("TRUST_FULLY", 3), ("TRUST_ULTIMATE", 4)]

/-- The attributes of a `Verify` result (src/gnupg.py:710-721). -/
structure VerifyState where
  valid : Bool
  fingerprint : Option String
  creation_date : Option String
  timestamp : Option String
  signature_id : Option String
  key_id : Option String
  username : Option String
  status : Option String
  pubkey_fingerprint : Option String
  expire_timestamp : Option String
  sig_timestamp : Option String
  trust_text : Option String
  trust_level : Option Nat
deriving DecidableEq, Repr

/-- `Verify.__init__` (src/gnupg.py:710-721). -/
def verifyInit : VerifyState :=
  { valid := false, fingerprint := none, creation_date := none,
    timestamp := none, signature_id := none, key_id := none, username := none,
    status := none, pubkey_fingerprint := none, expire_timestamp := none,
    sig_timestamp := none, trust_text := none, trust_level := none }

/-- `Verify.__nonzero__` (src/gnupg.py:723-724). -/
def verify_bool (s : VerifyState) : Bool := s.valid

/-- `Verify.handle_status` (src/gnupg.py:728-782), one branch per source
`elif`; tuple-unpacking of `value.split(...)` that would raise in Python is an
`Except.error`. -/
def verify_handle_status (s : VerifyState) (key value : String) :
    Except String VerifyState :=
  if (TRUST_LEVELS.lookup key).isSome then
    Except.ok { s with trust_text := some key,
                       trust_level := TRUST_LEVELS.lookup key }
  else
    if key ∈ ["RSA_OR_IDEA", "NODATA", "IMPORT_RES", "PLAINTEXT",
              "PLAINTEXT_LENGTH", "POLICY_URL", "DECRYPTION_INFO",
              "DECRYPTION_OKAY", "INV_SGNR"] then
      Except.ok s
    else if key = "BADSIG" then
      match pySplitNone1 value with
      | [kid, uname] =>
        Except.ok { s with valid := false, status := some "signature bad",
                           key_id := some kid, username := some uname }
      | _ => Except.error "ValueError: unpacking BADSIG value"
    else if key = "GOODSIG" then
      match pySplitNone1 value with
      | [kid, uname] =>
        Except.ok { s with valid := true, status := some "signature good",
                           key_id := some kid, username := some uname }
      | _ => Except.error "ValueError: unpacking GOODSIG value"
    else if key = "VALIDSIG" then
      match (pySplitWs value).take 4, (pySplitWs value).getLast? with
      | [fp, cd, st, et], some pkfp =>
        Except.ok { s with fingerprint := some fp, creation_date := some cd,
                           sig_timestamp := some st, expire_timestamp := some et,
                           pubkey_fingerprint := some pkfp,
                           status := some "signature valid" }
      | _, _ => Except.error "ValueError: unpacking VALIDSIG value"
    else if key = "SIG_ID" then
      match pySplitWs value with
      | [sid, cd, ts] =>
        Except.ok { s with signature_id := some sid, creation_date := some cd,
                           timestamp := some ts }
      | _ => Except.error "ValueError: unpacking SIG_ID value"
    else if key = "ERRSIG" then
      match (pySplitWs value).take 5 with
      | [kid, _algo, _hashAlgo, _cls, ts] =>
        Except.ok { s with valid := false, key_id := some kid,
                           timestamp := some ts, status := some "signature error" }
      | _ => Except.error "ValueError: unpacking ERRSIG value"
    else if key = "DECRYPTION_FAILED" then
      Except.ok { s with valid := false, key_id := some value,
                         status := some "decryption failed" }
    else if key = "NO_PUBKEY" then
      Except.ok { s with valid := false, key_id := some value,
                         status := some "no public key" }
    else if key ∈ ["KEYEXPIRED", "SIGEXPIRED"] then
      Except.ok s
    else if key ∈ ["EXPKEYSIG", "REVKEYSIG"] then
      match pySplitWs value with
      | kid :: _ =>
        Except.ok { s with valid := false, key_id := some kid,
                           status := some (pyLower (strTake key 3 ++ " " ++ strDrop key 3)) }
      | [] => Except.error "IndexError: empty EXPKEYSIG value"
    else Except.error (unknownStatus key)

/-! ### Crypt (src/gnupg.py:925-974), extends Verify -/

/-- A `Crypt` result: the inherited `Verify` attributes plus `data` and `ok`
(src/gnupg.py:927-931).  `status` is the shared inherited attribute, kept in
`toVerify`. -/
structure CryptState where
  toVerify : VerifyState
  data : String
  ok : Bool
deriving DecidableEq, Repr

/-- `Crypt.__init__` (src/gnupg.py:927-931): `Verify.__init__` then
`data = ''`, `ok = False`, `status = ''`. -/
def cryptInit : CryptState :=
  { toVerify := { verifyInit with status := some "" }, data := "", ok := false }

/-- `Crypt.__nonzero__` (src/gnupg.py:933-935). -/
def crypt_bool (s : CryptState) : Bool := if s.ok then true else false

/-- Helper for the many `self.status = ...` assignments of
`Crypt.handle_status`. -/
def cryptSetStatus (s : CryptState) (t : String) : CryptState :=
  { s with toVerify := { s.toVerify with status := some t } }

/-- `Crypt.handle_status` (src/gnupg.py:942-974); the final `else` delegates
to `Verify.handle_status` on the inherited attributes. -/
def crypt_handle_status (s : CryptState) (key value : String) :
    Except String CryptState :=
  if key ∈ ["ENC_TO", "USERID_HINT", "GOODMDC", "END_DECRYPTION",
            "BEGIN_SIGNING", "NO_SECKEY", "ERROR", "NODATA", "CARDCTRL"] then
    Except.ok s
  else if key ∈ ["NEED_PASSPHRASE", "BAD_PASSPHRASE", "GOOD_PASSPHRASE",
                 "MISSING_PASSPHRASE", "DECRYPTION_FAILED", "KEY_NOT_CREATED"] then
    Except.ok (cryptSetStatus s (pyLower (replaceChar key '_' ' ')))
  else if key = "NEED_PASSPHRASE_SYM" then
    Except.ok (cryptSetStatus s "need symmetric passphrase")
  else if key = "BEGIN_DECRYPTION" then
    Except.ok (cryptSetStatus s "decryption incomplete")
  else if key = "BEGIN_ENCRYPTION" then
    Except.ok (cryptSetStatus s "encryption incomplete")
  else if key = "DECRYPTION_OKAY" then
    Except.ok { cryptSetStatus s "decryption ok" with ok := true }
  else if key = "END_ENCRYPTION" then
    Except.ok { cryptSetStatus s "encryption ok" with ok := true }
  else if key = "INV_RECP" then
    Except.ok (cryptSetStatus s "invalid recipient")
  else if key = "KEYEXPIRED" then
    Except.ok (cryptSetStatus s "key expired")
  else if key = "SIG_CREATED" then
    Except.ok (cryptSetStatus s "sig created")
  else if key = "SIGEXPIRED" then
    Except.ok (cryptSetStatus s "sig expired")
  else
    (verify_handle_status s.toVerify key value).map (fun v => { s with toVerify := v })

/-! ### ImportResult (src/gnupg.py:784-865) -/

/-- One entry of `ImportResult.results`: a Python dict with keys
`fingerprint`, `problem` or `ok`, and `text`. -/
structure ImportEntry where
  fingerprint : Option String
  problem : Option String
  okCode : Option String
  text : String
deriving DecidableEq, Repr

/-- `ImportResult.ok_reason` (src/gnupg.py:805-812), in insertion order. -/
def ok_reason : List (String × String) :=
  [("0", "Not actually changed"), ("1", "Entirely new key"),
   ("2", "New user IDs"), ("4", "New signatures"), ("8", "New subkeys"),
   ("16", "Contains private key")]

/-- `ImportResult.problem_reason` (src/gnupg.py:814-820). -/
def problem_reason : List (String × String) :=
  [("0", "No specific reason given"), ("1", "Invalid Certificate"),
   ("2", "Issuer Certificate missing"), ("3", "Certificate Chain too long"),
   ("4", "Error storing certificate")]

/-- The attributes of `ImportResult` (src/gnupg.py:790-796): the `results`
and `fingerprints` lists plus the thirteen counters of `ImportResult.counts`,
each initialized to `None` (the loop over `counts` overwrites the
`imported = []` list with `None` as well, since `'imported'` is a count
name). -/
structure ImportState where
  results : List ImportEntry
  fingerprints : List String
  count : Option Int
  no_user_id : Option Int
  imported : Option Int
  imported_rsa : Option Int
  unchanged : Option Int
  n_uids : Option Int
  n_subk : Option Int
  n_sigs : Option Int
  n_revoc : Option Int
  sec_read : Option Int
  sec_imported : Option Int
  sec_dups : Option Int
  not_imported : Option Int
deriving DecidableEq, Repr

/-- `ImportResult.__init__` (src/gnupg.py:790-796). -/
def importInit : ImportState :=
  { results := [], fingerprints := [], count := none, no_user_id := none,
    imported := none, imported_rsa := none, unchanged := none, n_uids := none,
    n_subk := none, n_sigs := none, n_revoc := none, sec_read := none,
    sec_imported := none, sec_dups := none, not_imported := none }

/-- Python truthiness of a count attribute: `None` and `0` are falsy. -/
def optIntTruthy : Option Int → Bool
  | none => false
  | some n => n != 0

/-- `ImportResult.__nonzero__` (src/gnupg.py:798-801): falsy when
`not_imported` is truthy, falsy when `fingerprints` is empty, else truthy. -/
def import_bool (s : ImportState) : Bool :=
  if optIntTruthy s.not_imported then false
  else if s.fingerprints.isEmpty then false
  else true

/-- The loop of the `IMPORT_OK` branch (src/gnupg.py:831-834): walk the
`ok_reason` table and collect the texts whose code passes the bitwise test
`int(reason) | int(code) == int(reason)`.  The codes of the table are numeric
literals, so `int(code)` cannot fail; `(pyInt _).getD 0` reflects that. -/
def okReasons (r : Int) : List String :=
  ok_reason.foldl
    (fun acc p => if Int.lor r ((pyInt p.1).getD 0) = r then acc ++ [p.2] else acc)
    []

/-- The thirteen values assigned by the `IMPORT_RES` branch, in the order of
`ImportResult.counts` (src/gnupg.py:787-789). -/
def setCounts (s : ImportState) (v : List Int) : ImportState :=
  { s with count := v.get? 0, no_user_id := v.get? 1, imported := v.get? 2,
           imported_rsa := v.get? 3, unchanged := v.get? 4, n_uids := v.get? 5,
           n_subk := v.get? 6, n_sigs := v.get? 7, n_revoc := v.get? 8,
           sec_read := v.get? 9, sec_imported := v.get? 10,
           sec_dups := v.get? 11, not_imported := v.get? 12 }

/-- Parse the first thirteen whitespace tokens of an `IMPORT_RES` value as
ints, reporting Python's `IndexError` (fewer than thirteen tokens) or
`ValueError` (a token that is not an int).  In Python the counters are
assigned one by one, so a failure at token `k` leaves tokens before `k`
assigned on the mutated object while the exception propagates; the embedding
returns only the error, which is all the `Except`-visible callers see. -/
def parseCounts (toks : List String) : Except String (List Int) :=
  if toks.length < 13 then Except.error "IndexError: import_res"
  else
    let parsed := (toks.take 13).map pyInt
    if parsed.all Option.isSome then Except.ok (parsed.map (·.getD 0))
    else Except.error "ValueError: int"

/-- `ImportResult.handle_status` (src/gnupg.py:822-858). -/
def import_handle_status (s : ImportState) (key value : String) :
    Except String ImportState :=
  if key = "IMPORTED" then Except.ok s
  else if key = "NODATA" then
    Except.ok { s with results := s.results ++
      [{ fingerprint := none, problem := some "0", okCode := none,
         text := "No valid data found" }] }
  else if key = "IMPORT_OK" then
    match pySplitWs value with
    | [reason, fingerprint] =>
      match pyInt reason with
      | none => Except.error "ValueError: int"
      | some r =>
        let reasontext := pyJoin "\n" (okReasons r) ++ "\n"
        Except.ok { s with
          results := s.results ++
            [{ fingerprint := some fingerprint, problem := none,
               okCode := some reason, text := reasontext }],
          fingerprints := s.fingerprints ++ [fingerprint] }
    | _ => Except.error "ValueError: unpacking IMPORT_OK value"
  else if key = "IMPORT_PROBLEM" then
    let rf : String × String :=
      match pySplitWs value with
      | [reason, fingerprint] => (reason, fingerprint)
      | _ => (value, "<unknown>")
    match problem_reason.lookup rf.1 with
    | some text =>
      Except.ok { s with results := s.results ++
        [{ fingerprint := some rf.2, problem := some rf.1, okCode := none,
           text := text }] }
    | none => Except.error "KeyError: problem_reason"
  else if key = "IMPORT_RES" then
    (parseCounts (pySplitWs value)).map (setCounts s)
  else if key = "KEYEXPIRED" then
    Except.ok { s with results := s.results ++
      [{ fingerprint := none, problem := some "0", okCode := none,
         text := "Key expired" }] }
  else if key = "SIGEXPIRED" then
    Except.ok { s with results := s.results ++
      [{ fingerprint := none, problem := some "0", okCode := none,
         text := "Signature expired" }] }
  else Except.error (unknownStatus key)

/-! ### GenKey (src/gnupg.py:976-998) -/

/-- The attributes of `GenKey` (src/gnupg.py:978-981). -/
structure GenKeyState where
  type : Option String
  fingerprint : Option String
deriving DecidableEq, Repr

/-- `GenKey.__init__`. -/
def genKeyInit : GenKeyState := { type := none, fingerprint := none }

/-- `GenKey.handle_status` (src/gnupg.py:992-998). -/
def genkey_handle_status (s : GenKeyState) (key value : String) :
    Except String GenKeyState :=
  if key ∈ ["PROGRESS", "GOOD_PASSPHRASE", "NODATA", "KEY_NOT_CREATED"] then
    Except.ok s
  else if key = "KEY_CREATED" then
    match pySplitWs value with
    | [t, fp] => Except.ok { s with type := some t, fingerprint := some fp }
    | _ => Except.error "ValueError: unpacking KEY_CREATED value"
  else Except.error (unknownStatus key)

/-! ### DeleteResult (src/gnupg.py:1000-1020) -/

/-- The attributes of `DeleteResult` (src/gnupg.py:1002-1004). -/
structure DeleteState where
  status : String
deriving DecidableEq, Repr

/-- `DeleteResult.__init__`. -/
def deleteInit : DeleteState := { status := "ok" }

/-- `DeleteResult.problem_reason` (src/gnupg.py:1009-1013). -/
def delete_problem_reason : List (String × String) :=
  [("1", "No such key"), ("2", "Must delete secret key first"),
   ("3", "Ambigious specification")]

/-- `DeleteResult.handle_status` (src/gnupg.py:1015-1020); the dict `.get`
default is the `"Unknown error: %r" % value` text. -/
def delete_handle_status (s : DeleteState) (key value : String) :
    Except String DeleteState :=
  if key = "DELETE_PROBLEM" then
    Except.ok { s with status :=
      (delete_problem_reason.lookup value).getD ("Unknown error: " ++ pyRepr value) }
  else Except.error (unknownStatus key)

/-! ### Sign (src/gnupg.py:1022-1046) -/

/-- The attributes of `Sign` touched by its handler (src/gnupg.py:1024-1027
plus the `timestamp` assigned by `SIG_CREATED`). -/
structure SignState where
  type : Option String
  fingerprint : Option String
  timestamp : Option String
deriving DecidableEq, Repr

/-- `Sign.__init__`. -/
def signInit : SignState := { type := none, fingerprint := none, timestamp := none }

/-- `Sign.__nonzero__` (src/gnupg.py:1029-1030). -/
def sign_bool (s : SignState) : Bool := s.fingerprint.isSome

/-- `Sign.handle_status` (src/gnupg.py:1037-1046). -/
def sign_handle_status (s : SignState) (key value : String) :
    Except String SignState :=
  if key ∈ ["USERID_HINT", "NEED_PASSPHRASE", "BAD_PASSPHRASE",
            "GOOD_PASSPHRASE", "BEGIN_SIGNING", "CARDCTRL", "INV_SGNR",
            "NODATA"] then
    Except.ok s
  else if key = "SIG_CREATED" then
    match pySplitWs value with
    | [t, _algo, _hashAlgo, _cls, ts, fp] =>
      Except.ok { s with type := some t, timestamp := some ts,
                         fingerprint := some fp }
    | _ => Except.error "ValueError: unpacking SIG_CREATED value"
  else Except.error (unknownStatus key)

/-! ### ListKeys (src/gnupg.py:867-923) -/

/-- A key record built by `ListKeys.key` — a Python dict; only the fields a
record can hold are modelled, since no claim inspects them. -/
structure ListKeysRecord where
  fields : List (String × String)
  uids : List String
  subkeys : List (String × String)
deriving DecidableEq, Repr

/-- The attributes of `ListKeys` (src/gnupg.py:885-890): the underlying list
of completed records plus the cursor and the global fingerprint/uid lists. -/
structure ListKeysState where
  records : List ListKeysRecord
  curkey : Option ListKeysRecord
  fingerprints : List String
  uids : List String
deriving DecidableEq, Repr

/-- `ListKeys.__init__`. -/
def listKeysInit : ListKeysState :=
  { records := [], curkey := none, fingerprints := [], uids := [] }

/-- `ListKeys.handle_status` (src/gnupg.py:922-923): the body is `pass` — it
ignores every `(keyword, value)` event and never raises. -/
def listkeys_handle_status (s : ListKeysState) (_key _value : String) :
    Except String ListKeysState :=
  Except.ok s

/-! ## The status-line parser `GPG._read_response` (src/gnupg.py:1226-1252) -/

/-- The nine-character magic marker `"[GNUPG:] "`. -/
def gnupgMarker : String := "[GNUPG:] "

/-- The per-line work of `_read_response` (src/gnupg.py:1238-1251): rstrip the
line, compare its first nine characters with the marker; on a match, split the
rest on the first whitespace run into the keyword and the value (empty when
nothing follows the keyword) and hand them to `handle_status`.  The result is
the `(keyword, value)` pair passed to the current Result's `handle_status`, or
`none` when no handler is invoked for this line.  `Except.error` models the
`IndexError` Python would raise on `L[0]` if the split came back empty — shown
unreachable in `processLine_marker_invokes` below, because an rstripped line
cannot end in the marker's trailing space. -/
def processLine (line : String) : Except String (Option (String × String)) :=
  if strTake (pyRstrip line) 9 = gnupgMarker then
    match pySplitNone1 (strDrop (pyRstrip line) 9) with
    | [] => Except.error "IndexError: empty status line"
    | [k] => Except.ok (some (k, ""))
    | k :: v :: _ => Except.ok (some (k, v))
  else Except.ok none

/-! ## Claim C1: identity of `_sanitise` on allow-listed flags -/

/-- Counterexample to C1 as stated: `"--list-keys"` is allow-listed and
already canonical, yet `_sanitise` does not return it character-for-character
— `_check_arg_and_value` appends a trailing space (`safe_values +=
allowed_flag + " "`, src/gnupg.py:536), which survives the final join. -/
theorem c1_sanitise_cex : "--list-keys" ∈ allowedList ∧
    sanitise1 "--list-keys" ≠ some "--list-keys" := by decide

/-- C1 (amended): for every allow-listed flag `f` in canonical form,
`_sanitise(f)` returns `f` followed by a single trailing space (the one
deviation from identity); for every non-allow-listed canonical flag token
(no underscore past position zero, no embedded space), `_is_allowed` raises
`ProtectedOption` and the token is dropped — the call returns the empty
string — and processing continues past a dropped token: an unknown flag
followed by an allow-listed flag still yields the allowed flag (plus its
trailing space). -/
theorem c1_sanitise_amended :
    (∀ f ∈ allowedList, sanitise1 f = some (f ++ " ")) ∧
    (∀ f : String, ¬ pyFind f '_' > 0 → f ∉ allowedList → ¬ pyFind f ' ' > 0 →
      is_allowed f = AllowResult.protectedOpt ∧ sanitise1 f = some "") ∧
    (∀ f ∈ allowedList, sanitise1 ("--bogus " ++ f) = some (f ++ " ")) := by
  refine ⟨by decide, ?_, by decide⟩
  intro f h1 h2 h3
  have ha : is_allowed f = AllowResult.protectedOpt := by
    simp only [is_allowed, if_neg h1]
    simp [h2]
  refine ⟨ha, ?_⟩
  simp only [sanitise1, if_neg h3]
  simp [check_arg_and_value, ha, pyJoin]

/-- Witness for C1 (amended), instantiating its hypothesis-bearing middle
conjunct at the non-allow-listed canonical flag `"--verbose"`. -/
theorem c1_sanitise_witness :
    is_allowed "--verbose" = AllowResult.protectedOpt ∧
    sanitise1 "--verbose" = some "" :=
  c1_sanitise_amended.2.1 "--verbose" (by decide) (by decide) (by decide)

/-! ## Claim C2: the escaping transform `_fix_unsafe` -/

/-- The character set named by the spec for C2 — the class
`A-Z`, `a-z`, `0-9` and the literals `@ % + = : , . / _ -` — written from the
spec's words, to be compared with the source-derived `riskyChar`. -/
def claimSafeChar (c : Char) : Prop :=
  ('A' ≤ c ∧ c ≤ 'Z') ∨ ('a' ≤ c ∧ c ≤ 'z') ∨ ('0' ≤ c ∧ c ≤ '9') ∨
  c ∈ "@%+=:,./_-".data

instance claimSafeCharDec (c : Char) : Decidable (claimSafeChar c) := by
  unfold claimSafeChar
  infer_instance

/-- The source's unsafe-character test is exactly the complement of the
spec's character set. -/
theorem safe_char_bridge (c : Char) : riskyChar c = false ↔ claimSafeChar c := by
  simp [riskyChar, wChar, classChars, Char.isAlpha, Char.isUpper, Char.isLower,
        Char.isDigit, claimSafeChar, Char.le_antisymm_iff, Char.le_def,
        UInt32.le_def, BitVec.le_def]
  omega

/-- C2: a string all of whose characters lie in the spec's safe set passes
through `_fix_unsafe` unchanged; a string with any character outside that set
comes back with every embedded single quote replaced by the five-character
sequence quote-doublequote-quote-doublequote-quote and the whole result
wrapped in single quotes. -/
theorem c2_fix_escape (s : String) :
    ((∀ c ∈ s.data, claimSafeChar c) → fixShell s = s) ∧
    ((∃ c ∈ s.data, ¬ claimSafeChar c) →
      fixShell s = sQuoteStr ++ replaceCharStr s sQuote quoteEscSeq ++ sQuoteStr) ∧
    quoteEscSeq.data = [sQuote, '\x22', sQuote, '\x22', sQuote] := by
  refine ⟨?_, ?_, rfl⟩
  · intro h
    have h0 : s.data.filter riskyChar = [] := by
      rw [List.filter_eq_nil_iff]
      intro c hc
      simp [(safe_char_bridge c).mpr (h c hc)]
    simp [fixShell, h0]
  · rintro ⟨c, hc, hns⟩
    have hr : riskyChar c = true := by
      by_cases hb : riskyChar c = false
      · exact absurd ((safe_char_bridge c).mp hb) hns
      · simpa using hb
    have hlen : ¬ (s.data.filter riskyChar).length = 0 := by
      simp only [List.length_eq_zero, List.filter_eq_nil_iff]
      push_neg
      exact ⟨c, hc, by simp [hr]⟩
    simp [fixShell, hlen]

/-- Witness for C2 at the all-safe string `"abc"` and at `"a b"`, whose
space falls outside the safe set. -/
theorem c2_fix_escape_witness : fixShell "abc" = "abc" ∧
    fixShell "a b" = sQuoteStr ++ replaceCharStr "a b" sQuote quoteEscSeq ++ sQuoteStr :=
  ⟨(c2_fix_escape "abc").1 (by decide), (c2_fix_escape "a b").2.1 (by decide)⟩

/-! ## Claim C5: underscore normalization in `_is_allowed` -/

/-- C5 names a behavior the code was written for but does not implement: for
`"list_keys"` the normalized flag `"--list-keys"` is computed (lines 428-432)
and is in the allow-list, yet `_is_allowed` returns `None` — the membership
check and `return input` sit in the no-underscore `else` branch (lines
433-445), so the hyphenated form is never consulted and `_sanitise` drops the
option.  This contradicts the function's own docstring (`@return: The
original parameter :param:input, unmodified and unsanitized, if no errors
occur`, lines 225-229). -/
theorem c5_underscore_bug :
    hyphenate "list_keys" true = "--list-keys" ∧
    "--list-keys" ∈ allowedList ∧
    is_allowed "list_keys" = AllowResult.noneResult ∧
    sanitise1 "list_keys" = some "" := by decide

/-! ## Claim C7: expiry keywords in `Verify.handle_status` -/

/-- C7: `KEYEXPIRED` and `SIGEXPIRED` leave the whole `Verify` state
untouched (the handler's branch is `pass`), while `EXPKEYSIG` and `REVKEYSIG`
set `valid` to `False`, set `key_id` to the first whitespace-delimited token
of the value, and set the status string (to `"exp keysig"` resp.
`"rev keysig"`, from `key[:3] + ' ' + key[3:]` lowercased). -/
theorem c7_verify_expiry (s : VerifyState) (v : String) :
    (verify_handle_status s "KEYEXPIRED" v = Except.ok s ∧
     verify_handle_status s "SIGEXPIRED" v = Except.ok s) ∧
    (∀ kid rest, pySplitWs v = kid :: rest →
      verify_handle_status s "EXPKEYSIG" v =
        Except.ok { s with valid := false, key_id := some kid,
                           status := some "exp keysig" } ∧
      verify_handle_status s "REVKEYSIG" v =
        Except.ok { s with valid := false, key_id := some kid,
                           status := some "rev keysig" }) := by
  refine ⟨⟨rfl, rfl⟩, ?_⟩
  intro kid rest h
  constructor
  · simp [verify_handle_status, TRUST_LEVELS, List.lookup, h]
    decide
  · simp [verify_handle_status, TRUST_LEVELS, List.lookup, h]
    decide

/-- Witness for C7 at the fresh `Verify` state and the value
`"AB12 unrelated"`. -/
theorem c7_verify_expiry_witness :
    verify_handle_status verifyInit "KEYEXPIRED" "AB12 unrelated" =
      Except.ok verifyInit ∧
    verify_handle_status verifyInit "EXPKEYSIG" "AB12 unrelated" =
      Except.ok { verifyInit with valid := false, key_id := some "AB12",
                                  status := some "exp keysig" } :=
  ⟨(c7_verify_expiry verifyInit "AB12 unrelated").1.1,
   ((c7_verify_expiry verifyInit "AB12 unrelated").2 "AB12" ["unrelated"]
      (by decide)).1⟩

/-! ## Claim C9: truthiness of a `Crypt` result -/

/-- C9: a `Crypt` result is truthy exactly when its `ok` flag is set, and the
inherited signature-validity flag plays no part; `ok` starts `False`, is
preserved by every successfully handled keyword other than `DECRYPTION_OKAY`
and `END_ENCRYPTION` (including everything delegated to the `Verify`
handler), is set by those two, and a run that sees `GOODSIG` then `VALIDSIG`
but never `DECRYPTION_OKAY` leaves the result falsy. -/
theorem c9_crypt_truthiness :
    (∀ s : CryptState, crypt_bool s = s.ok) ∧
    (∀ (s : CryptState) (b : Bool),
      crypt_bool { s with toVerify := { s.toVerify with valid := b } } = crypt_bool s) ∧
    cryptInit.ok = false ∧
    (∀ (s : CryptState) (k v : String) (s' : CryptState),
      crypt_handle_status s k v = Except.ok s' →
      k ≠ "DECRYPTION_OKAY" → k ≠ "END_ENCRYPTION" → s'.ok = s.ok) ∧
    (∀ (s : CryptState) (v : String) (s' : CryptState),
      crypt_handle_status s "DECRYPTION_OKAY" v = Except.ok s' → s'.ok = true) ∧
    (∀ (s : CryptState) (v : String) (s' : CryptState),
      crypt_handle_status s "END_ENCRYPTION" v = Except.ok s' → s'.ok = true) ∧
    Except.map crypt_bool ((crypt_handle_status cryptInit "GOODSIG" "AB12 Alice").bind
      (fun s1 => crypt_handle_status s1 "VALIDSIG" "F C T E P")) = Except.ok false := by
  refine ⟨?_, ?_, rfl, ?_, ?_, ?_, ?_⟩
  · intro s; unfold crypt_bool; cases s.ok <;> rfl
  · intro s b; rfl
  · intro s k v s' h hk1 hk2
    unfold crypt_handle_status at h
    split_ifs at h <;>
      first
        | (injection h with h'; subst h'; rfl)
        | (exact absurd (by assumption : k = "DECRYPTION_OKAY") hk1)
        | (exact absurd (by assumption : k = "END_ENCRYPTION") hk2)
        | (cases hv : verify_handle_status s.toVerify k v with
            | error e => rw [hv] at h; exact absurd h (by simp [Except.map])
            | ok v' =>
              rw [hv] at h
              simp only [Except.map] at h
              injection h with h'
              subst h'
              rfl)
  · intro s v s' h
    unfold crypt_handle_status at h
    simp at h
    subst h
    rfl
  · intro s v s' h
    unfold crypt_handle_status at h
    simp at h
    subst h
    rfl
  · rfl

/-- Witness for C9, instantiating the preservation conjunct at
`BEGIN_DECRYPTION` on the fresh state. -/
theorem c9_crypt_truthiness_witness :
    (cryptSetStatus cryptInit "decryption incomplete").ok = cryptInit.ok :=
  c9_crypt_truthiness.2.2.2.1 cryptInit "BEGIN_DECRYPTION" ""
    (cryptSetStatus cryptInit "decryption incomplete") rfl (by decide) (by decide)

/-! ## Claim C10: truthiness of an `ImportResult` -/

/-- C10: an `ImportResult` is truthy exactly when its `not_imported` counter
is falsy (`None` or `0`) and its `fingerprints` list is non-empty; the fresh
result is falsy, and after an `IMPORT_RES` whose thirteenth count
(`not_imported`) is non-zero the result is falsy regardless of accumulated
fingerprints. -/
theorem c10_import_truthiness :
    (∀ s : ImportState, import_bool s = true ↔
       ((s.not_imported = none ∨ s.not_imported = some 0) ∧ s.fingerprints ≠ [])) ∧
    import_bool importInit = false ∧
    (∀ (s : ImportState) (v : String) (s' : ImportState) (n : Int),
      import_handle_status s "IMPORT_RES" v = Except.ok s' →
      s'.not_imported = some n → n ≠ 0 → import_bool s' = false) := by
  refine ⟨?_, rfl, ?_⟩
  · intro s
    unfold import_bool optIntTruthy
    cases hn : s.not_imported with
    | none => cases hf : s.fingerprints <;> simp [hn, hf]
    | some n => cases hf : s.fingerprints <;> by_cases h0 : n = 0 <;> simp [hn, hf, h0]
  · intro s v s' n _ hn h0
    unfold import_bool
    simp [optIntTruthy, hn, h0]

/-- Witness for C10: an `IMPORT_RES` reporting `not_imported = 2` makes the
result falsy even though a fingerprint had been imported. -/
theorem c10_import_truthiness_witness : import_bool
    (setCounts { importInit with fingerprints := ["FPR1"] }
      [1, 0, 0, 0, 0, 0, 0, 0, 0, 0, 0, 0, 2]) = false :=
  c10_import_truthiness.2.2 { importInit with fingerprints := ["FPR1"] }
    "1 0 0 0 0 0 0 0 0 0 0 0 2" _ 2 rfl rfl (by decide)

/-! ## Claim C3: unknown status keywords -/

/-- Every keyword `Verify.handle_status` has a case for. -/
def verifyKnownKeys : List String :=
  ["TRUST_UNDEFINED", "TRUST_NEVER", "TRUST_MARGINAL", "TRUST_FULLY",
   "TRUST_ULTIMATE",
   "RSA_OR_IDEA", "NODATA", "IMPORT_RES", "PLAINTEXT", "PLAINTEXT_LENGTH",
   "POLICY_URL", "DECRYPTION_INFO", "DECRYPTION_OKAY", "INV_SGNR",
   "BADSIG", "GOODSIG", "VALIDSIG", "SIG_ID", "ERRSIG", "DECRYPTION_FAILED",
   "NO_PUBKEY", "KEYEXPIRED", "SIGEXPIRED", "EXPKEYSIG", "REVKEYSIG"]

/-- The keywords of `Crypt.handle_status`'s own branches; everything else is
delegated to the `Verify` handler. -/
def cryptOwnKeys : List String :=
  ["ENC_TO", "USERID_HINT", "GOODMDC", "END_DECRYPTION", "BEGIN_SIGNING",
   "NO_SECKEY", "ERROR", "NODATA", "CARDCTRL",
   "NEED_PASSPHRASE", "BAD_PASSPHRASE", "GOOD_PASSPHRASE",
   "MISSING_PASSPHRASE", "DECRYPTION_FAILED", "KEY_NOT_CREATED",
   "NEED_PASSPHRASE_SYM", "BEGIN_DECRYPTION", "BEGIN_ENCRYPTION",
   "DECRYPTION_OKAY", "END_ENCRYPTION", "INV_RECP", "KEYEXPIRED",
   "SIG_CREATED", "SIGEXPIRED"]

/-- Every keyword a `Crypt` result can handle, directly or by delegation. -/
def cryptKnownKeys : List String := cryptOwnKeys ++ verifyKnownKeys

/-- Every keyword `GenKey.handle_status` has a case for. -/
def genKeyKnownKeys : List String :=
  ["PROGRESS", "GOOD_PASSPHRASE", "NODATA", "KEY_NOT_CREATED", "KEY_CREATED"]

/-- Every keyword `Sign.handle_status` has a case for. -/
def signKnownKeys : List String :=
  ["USERID_HINT", "NEED_PASSPHRASE", "BAD_PASSPHRASE", "GOOD_PASSPHRASE",
   "BEGIN_SIGNING", "CARDCTRL", "INV_SGNR", "NODATA", "SIG_CREATED"]

/-- Every keyword `ImportResult.handle_status` has a case for. -/
def importKnownKeys : List String :=
  ["IMPORTED", "NODATA", "IMPORT_OK", "IMPORT_PROBLEM", "IMPORT_RES",
   "KEYEXPIRED", "SIGEXPIRED"]

/-- A successful `TRUST_LEVELS` lookup means the key is one of the five trust
keywords. -/
theorem trust_lookup_mem {key : String}
    (h : (TRUST_LEVELS.lookup key).isSome = true) : key ∈ verifyKnownKeys := by
  simp only [TRUST_LEVELS, List.lookup] at h
  split at h
  · simp_all [verifyKnownKeys]
  · split at h
    · simp_all [verifyKnownKeys]
    · split at h
      · simp_all [verifyKnownKeys]
      · split at h
        · simp_all [verifyKnownKeys]
        · split at h
          · simp_all [verifyKnownKeys]
          · simp at h

/-- `Verify.handle_status` raises on every keyword outside its known set. -/
theorem verify_handle_unknown (s : VerifyState) (key value : String)
    (h : key ∉ verifyKnownKeys) :
    verify_handle_status s key value = Except.error (unknownStatus key) := by
  have c1 : ¬ ((TRUST_LEVELS.lookup key).isSome = true) :=
    fun hs => h (trust_lookup_mem hs)
  have c2 : key ∉ ["RSA_OR_IDEA", "NODATA", "IMPORT_RES", "PLAINTEXT",
      "PLAINTEXT_LENGTH", "POLICY_URL", "DECRYPTION_INFO", "DECRYPTION_OKAY",
      "INV_SGNR"] := by
    intro hm; apply h; fin_cases hm <;> decide
  have c3 : ¬ key = "BADSIG" := fun he => h (by rw [he]; decide)
  have c4 : ¬ key = "GOODSIG" := fun he => h (by rw [he]; decide)
  have c5 : ¬ key = "VALIDSIG" := fun he => h (by rw [he]; decide)
  have c6 : ¬ key = "SIG_ID" := fun he => h (by rw [he]; decide)
  have c7 : ¬ key = "ERRSIG" := fun he => h (by rw [he]; decide)
  have c8 : ¬ key = "DECRYPTION_FAILED" := fun he => h (by rw [he]; decide)
  have c9 : ¬ key = "NO_PUBKEY" := fun he => h (by rw [he]; decide)
  have c10 : key ∉ ["KEYEXPIRED", "SIGEXPIRED"] := by
    intro hm; apply h; fin_cases hm <;> decide
  have c11 : key ∉ ["EXPKEYSIG", "REVKEYSIG"] := by
    intro hm; apply h; fin_cases hm <;> decide
  unfold verify_handle_status
  rw [if_neg c1, if_neg c2, if_neg c3, if_neg c4, if_neg c5, if_neg c6,
      if_neg c7, if_neg c8, if_neg c9, if_neg c10, if_neg c11]

/-- `Crypt.handle_status` raises on every keyword outside its known set
(its own branches plus the delegated `Verify` set). -/
theorem crypt_handle_unknown (s : CryptState) (key value : String)
    (h : key ∉ cryptKnownKeys) :
    crypt_handle_status s key value = Except.error (unknownStatus key) := by
  have hown : key ∉ cryptOwnKeys := fun hm => h (by
    simp [cryptKnownKeys, List.mem_append]
    exact Or.inl hm)
  have hver : key ∉ verifyKnownKeys := fun hm => h (by
    simp [cryptKnownKeys, List.mem_append]
    exact Or.inr hm)
  have c1 : key ∉ ["ENC_TO", "USERID_HINT", "GOODMDC", "END_DECRYPTION",
      "BEGIN_SIGNING", "NO_SECKEY", "ERROR", "NODATA", "CARDCTRL"] := by
    intro hm; apply hown; fin_cases hm <;> decide
  have c2 : key ∉ ["NEED_PASSPHRASE", "BAD_PASSPHRASE", "GOOD_PASSPHRASE",
      "MISSING_PASSPHRASE", "DECRYPTION_FAILED", "KEY_NOT_CREATED"] := by
    intro hm; apply hown; fin_cases hm <;> decide
  have c3 : ¬ key = "NEED_PASSPHRASE_SYM" := fun he => hown (by rw [he]; decide)
  have c4 : ¬ key = "BEGIN_DECRYPTION" := fun he => hown (by rw [he]; decide)
  have c5 : ¬ key = "BEGIN_ENCRYPTION" := fun he => hown (by rw [he]; decide)
  have c6 : ¬ key = "DECRYPTION_OKAY" := fun he => hown (by rw [he]; decide)
  have c7 : ¬ key = "END_ENCRYPTION" := fun he => hown (by rw [he]; decide)
  have c8 : ¬ key = "INV_RECP" := fun he => hown (by rw [he]; decide)
  have c9 : ¬ key = "KEYEXPIRED" := fun he => hown (by rw [he]; decide)
  have c10 : ¬ key = "SIG_CREATED" := fun he => hown (by rw [he]; decide)
  have c11 : ¬ key = "SIGEXPIRED" := fun he => hown (by rw [he]; decide)
  unfold crypt_handle_status
  rw [if_neg c1, if_neg c2, if_neg c3, if_neg c4, if_neg c5, if_neg c6,
      if_neg c7, if_neg c8, if_neg c9, if_neg c10, if_neg c11,
      verify_handle_unknown s.toVerify key value hver]
  rfl

/-- `GenKey.handle_status` raises on every keyword outside its known set. -/
theorem genkey_handle_unknown (s : GenKeyState) (key value : String)
    (h : key ∉ genKeyKnownKeys) :
    genkey_handle_status s key value = Except.error (unknownStatus key) := by
  have c1 : key ∉ ["PROGRESS", "GOOD_PASSPHRASE", "NODATA", "KEY_NOT_CREATED"] := by
    intro hm; apply h; fin_cases hm <;> decide
  have c2 : ¬ key = "KEY_CREATED" := fun he => h (by rw [he]; decide)
  unfold genkey_handle_status
  rw [if_neg c1, if_neg c2]

/-- `DeleteResult.handle_status` raises on every keyword other than
`DELETE_PROBLEM`. -/
theorem delete_handle_unknown (s : DeleteState) (key value : String)
    (h : ¬ key = "DELETE_PROBLEM") :
    delete_handle_status s key value = Except.error (unknownStatus key) := by
  unfold delete_handle_status
  rw [if_neg h]

/-- `Sign.handle_status` raises on every keyword outside its known set. -/
theorem sign_handle_unknown (s : SignState) (key value : String)
    (h : key ∉ signKnownKeys) :
    sign_handle_status s key value = Except.error (unknownStatus key) := by
  have c1 : key ∉ ["USERID_HINT", "NEED_PASSPHRASE", "BAD_PASSPHRASE",
      "GOOD_PASSPHRASE", "BEGIN_SIGNING", "CARDCTRL", "INV_SGNR", "NODATA"] := by
    intro hm; apply h; fin_cases hm <;> decide
  have c2 : ¬ key = "SIG_CREATED" := fun he => h (by rw [he]; decide)
  unfold sign_handle_status
  rw [if_neg c1, if_neg c2]

/-- `ImportResult.handle_status` raises on every keyword outside its known
set. -/
theorem import_handle_unknown (s : ImportState) (key value : String)
    (h : key ∉ importKnownKeys) :
    import_handle_status s key value = Except.error (unknownStatus key) := by
  have c1 : ¬ key = "IMPORTED" := fun he => h (by rw [he]; decide)
  have c2 : ¬ key = "NODATA" := fun he => h (by rw [he]; decide)
  have c3 : ¬ key = "IMPORT_OK" := fun he => h (by rw [he]; decide)
  have c4 : ¬ key = "IMPORT_PROBLEM" := fun he => h (by rw [he]; decide)
  have c5 : ¬ key = "IMPORT_RES" := fun he => h (by rw [he]; decide)
  have c6 : ¬ key = "KEYEXPIRED" := fun he => h (by rw [he]; decide)
  have c7 : ¬ key = "SIGEXPIRED" := fun he => h (by rw [he]; decide)
  unfold import_handle_status
  rw [if_neg c1, if_neg c2, if_neg c3, if_neg c4, if_neg c5, if_neg c6,
      if_neg c7]

/-- Counterexample to C3 as stated: `ListKeys.handle_status` is `pass`
(src/gnupg.py:922-923) — on a keyword no Result type knows it returns the
state unchanged and raises nothing, rather than an "Unknown status message"
error. -/
theorem c3_unknown_status_cex :
    listkeys_handle_status listKeysInit "NOT_A_REAL_KEYWORD" "" =
      Except.ok listKeysInit ∧
    listkeys_handle_status listKeysInit "NOT_A_REAL_KEYWORD" "" ≠
      Except.error (unknownStatus "NOT_A_REAL_KEYWORD") := by
  exact ⟨rfl, by simp [listkeys_handle_status]⟩

/-- C3 (amended): every Result variant except `ListKeys` — `Verify`, `Crypt`,
`GenKey`, `Sign`, `ImportResult`, `DeleteResult` — raises the
"Unknown status message" error on any `(keyword, value)` whose keyword lies
outside that variant's known keyword set; `ListKeys.handle_status` instead
ignores every event (its body is `pass`), never raising. -/
theorem c3_unknown_status_amended :
    (∀ (s : VerifyState) (k v : String), k ∉ verifyKnownKeys →
      verify_handle_status s k v = Except.error (unknownStatus k)) ∧
    (∀ (s : CryptState) (k v : String), k ∉ cryptKnownKeys →
      crypt_handle_status s k v = Except.error (unknownStatus k)) ∧
    (∀ (s : GenKeyState) (k v : String), k ∉ genKeyKnownKeys →
      genkey_handle_status s k v = Except.error (unknownStatus k)) ∧
    (∀ (s : SignState) (k v : String), k ∉ signKnownKeys →
      sign_handle_status s k v = Except.error (unknownStatus k)) ∧
    (∀ (s : ImportState) (k v : String), k ∉ importKnownKeys →
      import_handle_status s k v = Except.error (unknownStatus k)) ∧
    (∀ (s : DeleteState) (k v : String), ¬ k = "DELETE_PROBLEM" →
      delete_handle_status s k v = Except.error (unknownStatus k)) ∧
    (∀ (s : ListKeysState) (_k _v : String),
      listkeys_handle_status s _k _v = Except.ok s) :=
  ⟨fun s k v h => verify_handle_unknown s k v h,
   fun s k v h => crypt_handle_unknown s k v h,
   fun s k v h => genkey_handle_unknown s k v h,
   fun s k v h => sign_handle_unknown s k v h,
   fun s k v h => import_handle_unknown s k v h,
   fun s k v h => delete_handle_unknown s k v h,
   fun _ _ _ => rfl⟩

/-- Witness for C3 (amended) at the concrete unknown keyword
`"XXUNKNOWN"`. -/
theorem c3_unknown_status_witness :
    verify_handle_status verifyInit "XXUNKNOWN" "v" =
      Except.error (unknownStatus "XXUNKNOWN") ∧
    crypt_handle_status cryptInit "XXUNKNOWN" "v" =
      Except.error (unknownStatus "XXUNKNOWN") ∧
    delete_handle_status deleteInit "XXUNKNOWN" "v" =
      Except.error (unknownStatus "XXUNKNOWN") :=
  ⟨c3_unknown_status_amended.1 verifyInit "XXUNKNOWN" "v" (by decide),
   c3_unknown_status_amended.2.1 cryptInit "XXUNKNOWN" "v" (by decide),
   c3_unknown_status_amended.2.2.2.2.2.1 deleteInit "XXUNKNOWN" "v" (by decide)⟩

/-! ## Claim C4: the stream copier `_copy_data` -/

/-- Total byte count of a chunk list. -/
def sumLen (cs : List (List Nat)) : Nat := (cs.map List.length).sum

/-- With enough fuel, the chunks concatenate back to the input: every byte is
read and nothing is invented. -/
theorem chunksFuel_flatten : ∀ (fuel : Nat) (l : List Nat), l.length ≤ fuel →
    (chunksFuel fuel l).flatten = l := by
  intro fuel
  induction fuel with
  | zero =>
    intro l h
    rw [List.eq_nil_of_length_eq_zero (Nat.le_zero.mp h)]
    rfl
  | succ n ih =>
    intro l h
    cases l with
    | nil => rfl
    | cons a t =>
      show (((a :: t).take 1024) :: chunksFuel n ((a :: t).drop 1024)).flatten = a :: t
      rw [List.flatten_cons, ih _ (by
        simp only [List.length_drop, List.length_cons] at h ⊢
        omega)]
      exact List.take_append_drop 1024 (a :: t)

/-- Every chunk read is non-empty and at most 1024 bytes. -/
theorem chunksFuel_mem : ∀ (fuel : Nat) (l : List Nat) (c : List Nat),
    c ∈ chunksFuel fuel l → c ≠ [] ∧ c.length ≤ 1024 := by
  intro fuel
  induction fuel with
  | zero => intro l c hc; simp [chunksFuel] at hc
  | succ n ih =>
    intro l c hc
    cases l with
    | nil => simp [chunksFuel] at hc
    | cons a t =>
      have h2 : c = a :: t.take 1023 ∨ c ∈ chunksFuel n (t.drop 1023) := by
        simpa [chunksFuel] using hc
      rcases h2 with rfl | hmem
      · refine ⟨by simp, ?_⟩
        simp only [List.length_cons, List.length_take]
        omega
      · exact ih _ _ hmem

/-- When every write succeeds, the loop writes every chunk, counts every
byte, and exits without breaking. -/
theorem copyLoop_all_ok (w : Nat → WriteOutcome)
    (hw : ∀ j, w j = WriteOutcome.okWrite) :
    ∀ (cs : List (List Nat)) (i sent : Nat),
      copyLoop w cs i sent = (cs, sent + sumLen cs, false) := by
  intro cs
  induction cs with
  | nil => intro i sent; simp [copyLoop, sumLen]
  | cons c cs ih =>
    intro i sent
    show (match w i with
      | WriteOutcome.okWrite =>
        let r := copyLoop w cs (i + 1) (sent + c.length)
        (c :: r.1, r.2.1, r.2.2)
      | WriteOutcome.unicodeThenOk =>
        let r := copyLoop w cs (i + 1) (sent + c.length)
        (c :: r.1, r.2.1, r.2.2)
      | WriteOutcome.unicodeThenIOErr => ([], sent + c.length, true)
      | WriteOutcome.ioErr => ([], sent + c.length, true)) = _
    rw [hw i]
    simp only [ih (i + 1) (sent + c.length)]
    simp [sumLen]
    omega

/-- When the first `k` writes succeed and write `k` hits a broken pipe, the
loop writes exactly the first `k` chunks, counts the bytes of the first
`k + 1` (`sent` is bumped before the failing write), terminates by `break`
(no propagation — the function still returns a result), and the rest of the
stream is not written. -/
theorem copyLoop_break (w : Nat → WriteOutcome) :
    ∀ (cs : List (List Nat)) (k i sent : Nat),
      k < cs.length →
      (∀ j, j < k → w (i + j) = WriteOutcome.okWrite) →
      w (i + k) = WriteOutcome.ioErr →
      copyLoop w cs i sent =
        (cs.take k, sent + sumLen (cs.take (k + 1)), true) := by
  intro cs
  induction cs with
  | nil => intro k i sent hk; exact absurd hk (by simp)
  | cons c cs ih =>
    intro k i sent hk hok herr
    show (match w i with
      | WriteOutcome.okWrite =>
        let r := copyLoop w cs (i + 1) (sent + c.length)
        (c :: r.1, r.2.1, r.2.2)
      | WriteOutcome.unicodeThenOk =>
        let r := copyLoop w cs (i + 1) (sent + c.length)
        (c :: r.1, r.2.1, r.2.2)
      | WriteOutcome.unicodeThenIOErr => ([], sent + c.length, true)
      | WriteOutcome.ioErr => ([], sent + c.length, true)) = _
    cases k with
    | zero =>
      rw [show w i = WriteOutcome.ioErr from by simpa using herr]
      simp [sumLen]
    | succ k =>
      rw [show w i = WriteOutcome.okWrite from by simpa using hok 0 (Nat.succ_pos k)]
      have ih2 := ih k (i + 1) (sent + c.length)
        (by simpa using Nat.lt_of_succ_lt_succ hk)
        (fun j hj => by
          have := hok (j + 1) (Nat.succ_lt_succ hj)
          simpa [Nat.add_assoc, Nat.add_comm 1 j] using this)
        (by
          have := herr
          simpa [Nat.add_assoc, Nat.add_comm 1 k] using this)
      simp only [ih2]
      simp [sumLen]
      omega

/-- Counterexample to C4 as stated: on a precondition failure (`instream` or
`outstream` of the wrong type) `_copy_data` returns from the assertion
handler (src/gnupg.py:120-122) without ever reaching `outstream.close()` at
line 148 — the sink is not closed on that exit path. -/
theorem c4_copy_data_cex :
    (copy_data false (fun _ => WriteOutcome.okWrite) [0, 1, 2]).closed = false :=
  rfl

/-- C4 (amended): `_copy_data` reads successive chunks of at most 1024 bytes
whose concatenation is the whole source; when every write succeeds it writes
every chunk and closes the sink; when a write hits a broken pipe it logs,
stops the loop there (writing exactly the prior chunks, without propagating
the error) and still closes the sink; but on a precondition failure it
returns without closing the sink. -/
theorem c4_copy_data_amended :
    (∀ input : List Nat, (readChunks input).flatten = input ∧
       ∀ c ∈ readChunks input, c ≠ [] ∧ c.length ≤ 1024) ∧
    (∀ (w : Nat → WriteOutcome) (input : List Nat),
       (∀ j, w j = WriteOutcome.okWrite) →
       copy_data true w input =
         { written := readChunks input, sent := input.length,
           closed := true, broke := false }) ∧
    (∀ (w : Nat → WriteOutcome) (input : List Nat) (k : Nat),
       k < (readChunks input).length →
       (∀ j, j < k → w j = WriteOutcome.okWrite) →
       w k = WriteOutcome.ioErr →
       copy_data true w input =
         { written := (readChunks input).take k,
           sent := sumLen ((readChunks input).take (k + 1)),
           closed := true, broke := true }) ∧
    (∀ (w : Nat → WriteOutcome) (input : List Nat),
       copy_data false w input =
         { written := [], sent := 0, closed := false, broke := false }) := by
  refine ⟨?_, ?_, ?_, fun w input => rfl⟩
  · intro input
    exact ⟨chunksFuel_flatten input.length input le_rfl,
           fun c hc => chunksFuel_mem input.length input c hc⟩
  · intro w input hw
    have hsum : sumLen (readChunks input) = input.length := by
      conv_rhs => rw [← chunksFuel_flatten input.length input le_rfl]
      simp [sumLen, readChunks]
    unfold copy_data
    simp only [Bool.not_true, if_neg]
    rw [copyLoop_all_ok w hw (readChunks input) 0 0]
    simp [hsum]
  · intro w input k hk hok herr
    unfold copy_data
    simp only [Bool.not_true, if_neg]
    rw [copyLoop_break w (readChunks input) k 0 0 hk
      (fun j hj => by simpa using hok j hj) (by simpa using herr)]
    simp

/-- Witness for C4 (amended): a two-byte stream copied with all-succeeding
writes, and the same stream against a first-write broken pipe. -/
theorem c4_copy_data_witness :
    copy_data true (fun _ => WriteOutcome.okWrite) [7, 8] =
      { written := [[7, 8]], sent := 2, closed := true, broke := false } ∧
    copy_data true (fun _ => WriteOutcome.ioErr) [7, 8] =
      { written := [], sent := 2, closed := true, broke := true } :=
  ⟨c4_copy_data_amended.2.1 (fun _ => WriteOutcome.okWrite) [7, 8]
     (fun _ => rfl),
   c4_copy_data_amended.2.2.1 (fun _ => WriteOutcome.ioErr) [7, 8] 0
     (by decide) (fun j hj => absurd hj (Nat.not_lt_zero j)) rfl⟩

/-! ## Claim C8: the `IMPORT_OK` branch of `ImportResult` -/

/-- The loop of the `IMPORT_OK` branch collects exactly the table entries
passing the bit-subset test, in table order. -/
theorem okReasons_eq_filter (r : Int) :
    okReasons r = (ok_reason.filter
      (fun p => Int.lor r ((pyInt p.1).getD 0) == r)).map Prod.snd := by
  have key : ∀ (l : List (String × String)) (acc : List String),
      l.foldl (fun acc p =>
          if Int.lor r ((pyInt p.1).getD 0) = r then acc ++ [p.2] else acc) acc
        = acc ++ (l.filter
            (fun p => Int.lor r ((pyInt p.1).getD 0) == r)).map Prod.snd := by
    intro l
    induction l with
    | nil => intro acc; simp
    | cons p l ih =>
      intro acc
      by_cases hq : Int.lor r ((pyInt p.1).getD 0) = r
      · simp [List.foldl_cons, hq, ih, List.filter_cons]
      · simp [List.foldl_cons, hq, ih, List.filter_cons]
  simpa [okReasons] using key ok_reason []

/-- Counterexample to C8 as stated: for `IMPORT_OK` with value `"1 AABB"`
the stored reason text is the newline-join of the passing entries' texts
*plus a terminating newline* (`'\n'.join(reasons) + "\n"`,
src/gnupg.py:835), so it is not equal to the plain newline-join the claim
describes. -/
theorem c8_import_ok_cex :
    Except.map (fun s => s.results.map (fun e => e.text))
      (import_handle_status importInit "IMPORT_OK" "1 AABB") =
      Except.ok ["Not actually changed\nEntirely new key\n"] ∧
    ("Not actually changed\nEntirely new key\n" : String) ≠
      pyJoin "\n" ["Not actually changed", "Entirely new key"] := by
  exact ⟨rfl, by decide⟩

/-- C8 (amended): for every `IMPORT_OK` event whose value splits on
whitespace into exactly `(reason, fingerprint)` with `reason` parsing as an
integer `r`, `ImportResult` appends the fingerprint to `fingerprints` and
records a result entry whose text is the newline-join of the texts of
exactly those `ok_reason` entries `(code, text)` satisfying the bit-subset
test `r | code == r` (not an equality test against the code), followed by a
single terminating newline. -/
theorem c8_import_ok_amended (s : ImportState) (value reason fp : String)
    (r : Int) (hsplit : pySplitWs value = [reason, fp])
    (hr : pyInt reason = some r) :
    import_handle_status s "IMPORT_OK" value =
      Except.ok { s with
        results := s.results ++
          [{ fingerprint := some fp
             problem := none
             okCode := some reason
             text := pyJoin "\n" ((ok_reason.filter
               (fun p => Int.lor r ((pyInt p.1).getD 0) == r)).map Prod.snd)
               ++ "\n" }]
        fingerprints := s.fingerprints ++ [fp] } := by
  unfold import_handle_status
  rw [hsplit]
  simp only [hr]
  rw [okReasons_eq_filter]
  simp

/-- Witness for C8 (amended) at reason bitmask `5` (new key plus new
signatures) and fingerprint `"FPRX"`. -/
theorem c8_import_ok_witness :
    import_handle_status importInit "IMPORT_OK" "5 FPRX" =
      Except.ok { importInit with
        results :=
          [{ fingerprint := some "FPRX"
             problem := none
             okCode := some "5"
             text := pyJoin "\n" ((ok_reason.filter
               (fun p => Int.lor 5 ((pyInt p.1).getD 0) == 5)).map Prod.snd)
               ++ "\n" }]
        fingerprints := ["FPRX"] } :=
  c8_import_ok_amended importInit "5 FPRX" "5" "FPRX" 5 (by decide) (by decide)

/-! ## Claim C6: the status-line parser -/

/-- The head of a `dropWhile p` result fails `p`. -/
theorem head_dropWhile_false {p : Char → Bool} :
    ∀ (l : List Char) (c : Char), (l.dropWhile p).head? = some c → p c = false := by
  intro l
  induction l with
  | nil => intro c h; simp [List.dropWhile] at h
  | cons a t ih =>
    intro c h
    rw [List.dropWhile_cons] at h
    by_cases hp : p a
    · rw [if_pos hp] at h; exact ih c h
    · rw [if_neg hp] at h
      simp at h
      rw [← h]
      simpa using hp

/-- An rstripped line has no trailing whitespace. -/
theorem pyRstripL_getLast {l : List Char} {c : Char}
    (h : (pyRstripL l).getLast? = some c) : c.isWhitespace = false := by
  unfold pyRstripL at h
  rw [List.getLast?_reverse] at h
  exact head_dropWhile_false _ c h

/-- A string containing a non-whitespace character splits into at least one
token under `split(None, 1)`. -/
theorem pySplitNone1_ne_nil {s : String} {c : Char} (hc : c ∈ s.data)
    (hw : c.isWhitespace = false) : pySplitNone1 s ≠ [] := by
  intro hnil
  unfold pySplitNone1 at hnil
  split_ifs at hnil with h1 h2
  rw [List.isEmpty_iff] at h1
  have := List.dropWhile_eq_nil_iff.mp h1 c hc
  simp [hw] at this

/-- When `split(None, 1)` yields two parts, the value part is non-empty (a
whitespace-only remainder is not returned). -/
theorem pySplitNone1_snd_ne {s k v : String} (h : pySplitNone1 s = [k, v]) :
    v ≠ "" := by
  unfold pySplitNone1 at h
  split_ifs at h with h1 h2
  · exact absurd h (by simp)
  · simp only [List.cons.injEq, and_true] at h
    intro hveq
    have hrest : (((s.data.dropWhile Char.isWhitespace).dropWhile
        (fun c => !c.isWhitespace)).dropWhile Char.isWhitespace) = [] := by
      have hv := h.2
      rw [hveq] at hv
      exact congrArg String.data hv
    rw [← List.isEmpty_iff] at hrest
    exact h2 hrest

/-- `split(None, 1)` yields at most two parts. -/
theorem pySplitNone1_cases (s : String) :
    pySplitNone1 s = [] ∨ (∃ a, pySplitNone1 s = [a]) ∨
      ∃ a b, pySplitNone1 s = [a, b] := by
  unfold pySplitNone1
  split_ifs with h1 h2
  · exact Or.inl rfl
  · exact Or.inr (Or.inl ⟨_, rfl⟩)
  · exact Or.inr (Or.inr ⟨_, _, rfl⟩)

/-- Counterexample to C6 as stated: the raw line `"[GNUPG:] \n"` begins with
the nine-character magic marker, yet no event handler is invoked for it — the
code rstrips the line first (src/gnupg.py:1238), which erases the marker's
trailing space, so the prefix comparison at line 1242 fails. -/
theorem c6_status_line_cex :
    (strTake "[GNUPG:] \n" 9 = gnupgMarker) ∧
    processLine "[GNUPG:] \n" = Except.ok none := by
  exact ⟨by decide, rfl⟩

/-- C6 (amended): the prefix test is applied to the line with trailing
whitespace stripped.  For every line whose rstripped form does not begin
with `"[GNUPG:] "`, no handler is invoked; for every line whose rstripped
form does begin with it, `handle_status` is invoked exactly once, on the
keyword/value pair obtained by splitting the remainder after the marker on
the first whitespace run, the value being the empty string when nothing
follows the keyword.  (In particular a line that begins with the marker but
carries only whitespace after it invokes no handler, because rstrip erases
the marker's own trailing space.) -/
theorem c6_status_line_amended :
    (∀ line : String, strTake (pyRstrip line) 9 ≠ gnupgMarker →
       processLine line = Except.ok none) ∧
    (∀ line : String, strTake (pyRstrip line) 9 = gnupgMarker →
       ∃ k v, processLine line = Except.ok (some (k, v)) ∧
         pySplitNone1 (strDrop (pyRstrip line) 9) =
           k :: (if v = "" then [] else [v])) := by
  constructor
  · intro line h
    unfold processLine
    rw [if_neg h]
  · intro line h
    have hdata : List.take 9 (pyRstripL line.data) = gnupgMarker.data :=
      congrArg String.data h
    have hlen : 9 ≤ (pyRstripL line.data).length := by
      have h9 := congrArg List.length hdata
      simp only [List.length_take] at h9
      have : gnupgMarker.data.length = 9 := rfl
      omega
    have hlenne : (pyRstripL line.data).length ≠ 9 := by
      intro h9
      have htt : List.take 9 (pyRstripL line.data) = pyRstripL line.data :=
        List.take_of_length_le (by omega)
      have hteq : pyRstripL line.data = gnupgMarker.data := by
        rw [← htt, hdata]
      have hlast : (pyRstripL line.data).getLast? = some ' ' := by
        rw [hteq]; rfl
      have := pyRstripL_getLast hlast
      simp at this
    have h10 : 10 ≤ (pyRstripL line.data).length := by omega
    have hrne : (pyRstripL line.data).drop 9 ≠ [] := by
      intro he
      have := congrArg List.length he
      simp only [List.length_drop, List.length_nil] at this
      omega
    have hlast9 : ((pyRstripL line.data).drop 9).getLast? =
        (pyRstripL line.data).getLast? := by
      conv_rhs => rw [← List.take_append_drop 9 (pyRstripL line.data)]
      rw [List.getLast?_append]
      rw [List.getLast?_eq_getLast_of_ne_nil hrne]
      rfl
    have hcex : ∃ c, ((pyRstripL line.data).drop 9).getLast? = some c ∧
        c.isWhitespace = false := by
      refine ⟨((pyRstripL line.data).drop 9).getLast hrne,
        List.getLast?_eq_getLast_of_ne_nil hrne, ?_⟩
      apply pyRstripL_getLast (l := line.data)
      rw [← hlast9]
      exact List.getLast?_eq_getLast_of_ne_nil hrne
    obtain ⟨c, hcl, hcw⟩ := hcex
    have hcmem : c ∈ (strDrop (pyRstrip line) 9).data := by
      show c ∈ (pyRstripL line.data).drop 9
      have : c = ((pyRstripL line.data).drop 9).getLast hrne := by
        rw [List.getLast?_eq_getLast_of_ne_nil hrne] at hcl
        exact (Option.some_inj.mp hcl).symm
      rw [this]
      exact List.getLast_mem hrne
    have hne : pySplitNone1 (strDrop (pyRstrip line) 9) ≠ [] :=
      pySplitNone1_ne_nil hcmem hcw
    rcases pySplitNone1_cases (strDrop (pyRstrip line) 9) with hs | ⟨a, hs⟩ | ⟨a, b, hs⟩
    · exact absurd hs hne
    · refine ⟨a, "", ?_, by rw [hs]; simp⟩
      unfold processLine
      rw [if_pos h, hs]
    · have hbne : b ≠ "" := pySplitNone1_snd_ne hs
      refine ⟨a, b, ?_, by rw [hs]; simp [hbne]⟩
      unfold processLine
      rw [if_pos h, hs]

/-- Witness for C6 (amended) at a line without the marker and at the line
`"[GNUPG:] GOODSIG AB12 Alice A\n"`. -/
theorem c6_status_line_witness :
    processLine "gpg: warning\n" = Except.ok none ∧
    (∃ k v, processLine "[GNUPG:] GOODSIG AB12 Alice\n" =
        Except.ok (some (k, v)) ∧
      pySplitNone1 (strDrop (pyRstrip "[GNUPG:] GOODSIG AB12 Alice\n") 9) =
        k :: (if v = "" then [] else [v])) :=
  ⟨c6_status_line_amended.1 "gpg: warning\n" (by decide),
   c6_status_line_amended.2 "[GNUPG:] GOODSIG AB12 Alice\n" (by decide)⟩
